import Mathlib

/-!
Verification of the office-life simulation engine and its content catalog.

The content catalog (origins, skills, random events, NPCs, jobs, scene
actions) is embedded directly from the repository's constants module.
The progression / action-resolution engine (session state, action
resolver, event selector, progression state machine) is declared only
through its external interface in the repository; those definitions are
modelled from the specification and are marked as such in their doc
comments.
-/

/-- Modelled from the spec: the career ranks (the types module declaring
the `Profession` enum is not in the sources; the ordered rank names come
from the spec's Progression State Machine section and the catalog's
`JOBS` keys). -/
inductive Profession
  | INTERN
  | JUNIOR
  | SENIOR
  | MANAGER
  | DIRECTOR
deriving DecidableEq

/-- Modelled from the spec: the scene enum (the types module is not in
the sources; the three scenes come from the catalog's `targetScene`
values and the scene dispatch in `GET_SCENE_ACTIONS`). -/
inductive SceneType
  | BOSS_OFFICE
  | WORKSTATION
  | HR
deriving DecidableEq

/-- Modelled from the spec: the origin enum (keys of the `ORIGINS`
record). -/
inductive OriginType
  | GRINDER
  | HEIR
  | SOCIALITE
deriving DecidableEq

/-- Modelled from the spec: the skill categories (the `category` field
values of the `SKILLS` catalog). -/
inductive SkillCategory
  | EFFICIENCY
  | POLITICS
  | SURVIVAL
deriving DecidableEq

/-- Modelled from the spec: the action categories (the `type` field
values of the action catalog). -/
inductive ActionType
  | WORK
  | PLEASE
  | REBEL
  | TALK
  | VIOLENCE
deriving DecidableEq

structure AvatarStyle where
  skin : String
  hair : String
  accessory : String
deriving DecidableEq

structure BaseStats where
  money : Int
  charm : Int
  intellect : Int
deriving DecidableEq

structure OriginConfig where
  id : OriginType
  name : String
  title : String
  description : String
  passive : String
  avatarStyle : AvatarStyle
  baseStats : BaseStats
deriving DecidableEq

structure SkillConfig where
  id : String
  name : String
  description : String
  category : SkillCategory
  cost : Nat
  maxLevel : Nat
  icon : String
  reqId : Option String := none
deriving DecidableEq

structure GameAction where
  id : String
  label : String
  description : String
  type : ActionType
  cost : Option Int := none
  value : Int
  cooldown : Nat
  targetScene : Option SceneType := none
deriving DecidableEq

structure EventOutcome where
  money : Option Int := none
  favor : Option Int := none
  rage : Option Int := none
  sp : Option Int := none
  feedbackText : String
deriving DecidableEq

structure EventOption where
  label : String
  description : String
  outcome : EventOutcome
deriving DecidableEq

structure RandomEvent where
  id : String
  title : String
  description : String
  npcRole : String
  triggerChance : ℚ
  options : List EventOption
deriving DecidableEq

structure NPCConfig where
  id : String
  name : String
  role : String
  avatarColor : String
  dialogues : List String
deriving DecidableEq

structure JobConfig where
  id : Profession
  title : String
  bossName : String
  bossAvatarColor : String
  playerAvatarColor : String
  maxFavor : Int
  actions : List GameAction
  enemyTexts : List String
  color : String
  machineName : String
deriving DecidableEq

-- --- ORIGINS ---

def ORIGINS : OriginType → OriginConfig
  | OriginType.GRINDER =>
    { id := OriginType.GRINDER
      name := "小镇做题家"
      title := "The Grinder"
      description := "背负巨额助学贷款，为了留在大城市只能拼命卷。"
      passive := "【内卷之王】工作收益+20%，但更容易积攒怒气。"
      avatarStyle := { skin := "#fde047", hair := "#000000", accessory := "GLASSES" }
      baseStats := { money := -50000, charm := 10, intellect := 90 } }
  | OriginType.HEIR =>
    { id := OriginType.HEIR
      name := "体验生活富二代"
      title := "The Heir"
      description := "如果不努力工作，就只能回家继承亿万家产。"
      passive := "【钞能力】开局自带资金，可以使用金钱消除怒气。"
      avatarStyle := { skin := "#ffedd5", hair := "#f59e0b", accessory := "SUNGLASSES" }
      baseStats := { money := 1000000, charm := 50, intellect := 40 } }
  | OriginType.SOCIALITE =>
    { id := OriginType.SOCIALITE
      name := "精致白富美"
      title := "The Socialite"
      description := "职场对你来说不仅是工作，更是社交场。"
      passive := "【八面玲珑】NPC好感度获取速度翻倍。"
      avatarStyle := { skin := "#fff1f2", hair := "#be123c", accessory := "JEWELRY" }
      baseStats := { money := 50000, charm := 90, intellect := 60 } }

-- --- SKILLS ---

def eff_typing : SkillConfig :=
  { id := "eff_typing"
    name := "键盘车神"
    description := "提升工作效率。每次【努力搬砖】获得的 Favor 增加 20%。"
    category := SkillCategory.EFFICIENCY
    cost := 1
    maxLevel := 5
    icon := "Zap" }

def eff_coffee : SkillConfig :=
  { id := "eff_coffee"
    name := "咖啡续命"
    description := "减少工作冷却时间。你需要更多咖啡因！(冷却 -10%)"
    category := SkillCategory.EFFICIENCY
    cost := 2
    maxLevel := 3
    icon := "Coffee"
    reqId := some ("eff_typing") }

def eff_auto : SkillConfig :=
  { id := "eff_auto"
    name := "摸鱼脚本"
    description := "每秒自动获得少量 Favor。解放双手！"
    category := SkillCategory.EFFICIENCY
    cost := 5
    maxLevel := 1
    icon := "Bot"
    reqId := some ("eff_coffee") }

def pol_smile : SkillConfig :=
  { id := "pol_smile"
    name := "职业假笑"
    description := "提升社交效果。【端茶倒水/PPT】类技能收益增加 25%。"
    category := SkillCategory.POLITICS
    cost := 1
    maxLevel := 5
    icon := "Smile" }

def pol_gossip : SkillConfig :=
  { id := "pol_gossip"
    name := "情报网络"
    description := "茶水间八卦不仅能回怒气，还能少量增加 Favor。"
    category := SkillCategory.POLITICS
    cost := 2
    maxLevel := 3
    icon := "Radio"
    reqId := some ("pol_smile") }

def pol_master : SkillConfig :=
  { id := "pol_master"
    name := "画饼大师"
    description := "你也能给老板画饼。所有【Please】类技能有几率暴击（双倍收益）。"
    category := SkillCategory.POLITICS
    cost := 5
    maxLevel := 1
    icon := "Crown"
    reqId := some ("pol_gossip") }

def sur_zen : SkillConfig :=
  { id := "sur_zen"
    name := "禅定模式"
    description := "增加怒气上限 +100。更能忍了。"
    category := SkillCategory.SURVIVAL
    cost := 1
    maxLevel := 5
    icon := "Heart" }

def sur_gym : SkillConfig :=
  { id := "sur_gym"
    name := "健身卡"
    description := "提升武力值。【暴力】类技能伤害增加 30%。"
    category := SkillCategory.SURVIVAL
    cost := 2
    maxLevel := 3
    icon := "Dumbbell"
    reqId := some ("sur_zen") }

def sur_law : SkillConfig :=
  { id := "sur_law"
    name := "劳动法"
    description := "精通劳动法。离职/仲裁时获得巨额赔偿金。"
    category := SkillCategory.SURVIVAL
    cost := 5
    maxLevel := 1
    icon := "Scale"
    reqId := some ("sur_gym") }

def SKILLS : List SkillConfig :=
  [eff_typing, eff_coffee, eff_auto, pol_smile, pol_gossip, pol_master,
   sur_zen, sur_gym, sur_law]

-- --- EVENTS ---

def evt_boss_secret : RandomEvent :=
  { id := "evt_boss_secret"
    title := "楼梯间的秘密"
    description := "午休时间你去楼梯间抽烟，意外撞见老板正抱着那个新来的实习生...他们举止亲密，并没有发现你。"
    npcRole := "BOSS"
    triggerChance := 15/100
    options :=
      [ { label := "拍照留存"
          description := "这可是核武器"
          outcome := { sp := some 2, rage := some (-20), favor := some 10
                       feedbackText := "咔嚓。视频非常清晰。你掌握了老板的命门！(获得技能点)" } }
      , { label := "勒索加薪"
          description := "富贵险中求"
          outcome := { money := some 20000, favor := some 50, rage := some (-50)
                       feedbackText := "老板脸色铁青地给你转了账，并承诺下月晋升你。" } }
      , { label := "咳嗽一声"
          description := "提醒他们"
          outcome := { rage := some 20, favor := some (-50)
                       feedbackText := "老板吓了一跳，随后用要杀人的眼神瞪了你一眼。好感度大降！" } } ] }

def evt_betrayal : RandomEvent :=
  { id := "evt_betrayal"
    title := "被背刺了"
    description := "你发现你信任的同事Gary把你做的方案改成了他的名字发给了大老板，并且还获得了一致好评。"
    npcRole := "COLLEAGUE"
    triggerChance := 2/10
    options :=
      [ { label := "当众揭穿"
          description := "忍不了一点"
          outcome := { rage := some (-100), favor := some (-20)
                       feedbackText := "你在会上大闹一场，虽然爽了，但大家觉得你情绪不稳定。" } }
      , { label := "私下谈判"
          description := "利益交换"
          outcome := { money := some 1000, rage := some 10
                       feedbackText := "Gary心虚地分了你一半奖金作为封口费。" } }
      , { label := "隐忍不发"
          description := "君子报仇"
          outcome := { sp := some 1, rage := some 50
                       feedbackText := "你默默记下了这笔账。心机+1，获得技能点。" } } ] }

def evt_offer : RandomEvent :=
  { id := "evt_offer"
    title := "猎头来电"
    description := "竞争对手公司打来电话，开出了双倍薪资挖你，但要求你带走现在的核心代码。"
    npcRole := "HR"
    triggerChance := 1/10
    options :=
      [ { label := "严词拒绝"
          description := "职业操守"
          outcome := { favor := some 40, money := some 0
                       feedbackText := "老板无意中听到了你的拒绝，对你的忠诚度非常满意。" } }
      , { label := "有些心动"
          description := "那可是双倍"
          outcome := { rage := some 20, favor := some (-10)
                       feedbackText := "你犹豫的态度被HR看在眼里，她开始提防你了。" } }
      , { label := "双面间谍"
          description := "两头通吃"
          outcome := { money := some 5000, favor := some 20, sp := some 1
                       feedbackText := "你假装答应猎头套取了竞对情报，反手汇报给老板。赢麻了！" } } ] }

def evt_blame : RandomEvent :=
  { id := "evt_blame"
    title := "背锅侠降临"
    description := "线上系统崩溃了，虽然不是你写的代码，但你是最后提交的人。总监正在找人背锅。"
    npcRole := "COLLEAGUE"
    triggerChance := 15/100
    options :=
      [ { label := "甩锅给实习生"
          description := "他还年轻"
          outcome := { favor := some 30, rage := some (-20), sp := some 1
                       feedbackText := "实习生哭着背了锅，高层觉得你很有管理手腕。" } }
      , { label := "主动背锅"
          description := "是个汉子"
          outcome := { favor := some (-30), rage := some 50, sp := some 2
                       feedbackText := "虽然被骂了，但你在团队中威望提升了。" } }
      , { label := "通宵修复"
          description := "技术解决"
          outcome := { favor := some 50, rage := some 100
                       feedbackText := "问题解决了，但你的发际线后移了2厘米。" } } ] }

def evt_coffee : RandomEvent :=
  { id := "evt_coffee"
    title := "下午茶拼单"
    description := "行政部的小美问你要不要一起拼奶茶，满200减20。"
    npcRole := "HR"
    triggerChance := 2/10
    options :=
      [ { label := "请全组喝"
          description := "收买人心 -$200"
          outcome := { money := some (-200), favor := some 25, rage := some (-30)
                       feedbackText := "大家都说你大气！好感度UP！" } }
      , { label := "只点自己的"
          description := " -$20"
          outcome := { money := some (-20), rage := some (-10)
                       feedbackText := "奶茶真好喝。" } }
      , { label := "减肥，不喝"
          description := "不合群"
          outcome := { favor := some (-5), rage := some 10
                       feedbackText := "你显得有点不合群。" } } ] }

def RANDOM_EVENTS : List RandomEvent :=
  [evt_boss_secret, evt_betrayal, evt_offer, evt_blame, evt_coffee]

-- --- NPCS ---

def NPCS : List (String × NPCConfig) :=
  [ ( "HR"
    , { id := "hr_linda"
        name := "HR Linda"
        role := "HR"
        avatarColor := "#ec4899"
        dialogues :=
          [ "亲爱的，这是你的入职合同，签了就是一家人。"
          , "离职流程很复杂的，要走三十天流程哦。"
          , "公司福利很好的，有免费的白开水。"
          , "你的考勤有点问题..." ] } )
  , ( "COLLEAGUE"
    , { id := "colleague_gary"
        name := "老油条 Gary"
        role := "COLLEAGUE"
        avatarColor := "#3b82f6"
        dialogues :=
          [ "听说隔壁部门又裁员了。"
          , "帮我看个Bug，我这有点急事（溜）。"
          , "老板今天心情不好，别去触霉头。"
          , "奶茶拼单吗？" ] } ) ]

-- Actions available at different stages

def punch : GameAction :=
  { id := "punch", label := "升龙拳", description := "耗油跟!"
    type := ActionType.VIOLENCE, cost := some 100, value := 20, cooldown := 500 }

def kick : GameAction :=
  { id := "kick", label := "旋风腿", description := "加加布鲁根!"
    type := ActionType.VIOLENCE, cost := some 100, value := 30, cooldown := 800 }

def scold : GameAction :=
  { id := "scold", label := "嘴炮", description := "含妈量极高"
    type := ActionType.VIOLENCE, cost := some 100, value := 15, cooldown := 200 }

def combo : GameAction :=
  { id := "combo", label := "超必杀", description := "KO!!!"
    type := ActionType.VIOLENCE, cost := some 300, value := 100, cooldown := 2000 }

def COMMON_VIOLENCE : List GameAction := [punch, kick, scold, combo]

def work_hard : GameAction :=
  { id := "work_hard", label := "努力搬砖", description := "+Favor -Rage"
    type := ActionType.WORK, value := 10, cooldown := 1000
    targetScene := some SceneType.WORKSTATION }

def gossip : GameAction :=
  { id := "gossip", label := "茶水间八卦", description := "触发奇遇"
    type := ActionType.TALK, value := 15, cooldown := 2000
    targetScene := some SceneType.WORKSTATION }

def help : GameAction :=
  { id := "help", label := "帮同事背锅", description := "+Favor ++Rage"
    type := ActionType.PLEASE, value := 20, cooldown := 3000
    targetScene := some SceneType.WORKSTATION }

def WORK_ACTIONS : List GameAction := [work_hard, gossip, help]

def onboard : GameAction :=
  { id := "onboard", label := "办理入职", description := "开始牛马生涯"
    type := ActionType.PLEASE, value := 0, cooldown := 10000
    targetScene := some SceneType.HR }

def resign : GameAction :=
  { id := "resign", label := "申请离职", description := "老子不干了"
    type := ActionType.REBEL, value := 0, cooldown := 5000
    targetScene := some SceneType.HR }

def argue_hr : GameAction :=
  { id := "argue_hr", label := "仲裁警告", description := "硬刚HR"
    type := ActionType.VIOLENCE, cost := some 50, value := 50, cooldown := 2000
    targetScene := some SceneType.HR }

def HR_ACTIONS : List GameAction := [onboard, resign, argue_hr]

def SEAFOOD_INSULTS : List String :=
  ["咸鱼!", "扑街!", "香蕉皮!", "大闸蟹!", "牛马!", "收皮啦!", "顶你个肺!", "废物!", "哪位呀?"]

def JOBS : Profession → JobConfig
  | Profession.INTERN =>
    { id := Profession.INTERN
      title := "卑微实习生"
      bossName := "苛刻主管"
      bossAvatarColor := "#475569"
      playerAvatarColor := "#94a3b8"
      maxFavor := 100
      actions :=
        [ { id := "tea", label := "端茶倒水", description := "老板请喝茶"
            type := ActionType.PLEASE, value := 10, cooldown := 1500
            targetScene := some SceneType.BOSS_OFFICE }
        , { id := "clean", label := "打扫卫生", description := "我爱扫地"
            type := ActionType.PLEASE, value := 15, cooldown := 2000
            targetScene := some SceneType.BOSS_OFFICE }
        , { id := "slack", label := "厕所摸鱼", description := "带薪拉屎"
            type := ActionType.REBEL, value := 10, cooldown := 1000
            targetScene := some SceneType.BOSS_OFFICE } ]
      enemyTexts := ["杂活", "复印", "跑腿", "订饭"]
      color := "#94a3b8"
      machineName := "碎纸机" }
  | Profession.JUNIOR =>
    { id := Profession.JUNIOR
      title := "初级社畜"
      bossName := "画饼经理"
      bossAvatarColor := "#7c2d12"
      playerAvatarColor := "#3b82f6"
      maxFavor := 250
      actions :=
        [ { id := "ot", label := "主动加班", description := "007是福报"
            type := ActionType.PLEASE, value := 20, cooldown := 2500
            targetScene := some SceneType.BOSS_OFFICE }
        , { id := "laugh", label := "尬笑", description := "老板真幽默"
            type := ActionType.PLEASE, value := 15, cooldown := 1500
            targetScene := some SceneType.BOSS_OFFICE }
        , { id := "refuse", label := "准点下班", description := "到点就跑"
            type := ActionType.REBEL, value := 20, cooldown := 2000
            targetScene := some SceneType.BOSS_OFFICE } ]
      enemyTexts := ["Bug", "需求", "周报", "会议"]
      color := "#3b82f6"
      machineName := "背锅侠" }
  | Profession.SENIOR =>
    { id := Profession.SENIOR
      title := "资深油条"
      bossName := "更年期总监"
      bossAvatarColor := "#be123c"
      playerAvatarColor := "#10b981"
      maxFavor := 500
      actions :=
        [ { id := "pot", label := "替老板背锅", description := "是我的错"
            type := ActionType.PLEASE, value := 40, cooldown := 4000
            targetScene := some SceneType.BOSS_OFFICE }
        , { id := "teach", label := "反向画饼", description := "我也能忽悠"
            type := ActionType.REBEL, value := 35, cooldown := 3000
            targetScene := some SceneType.BOSS_OFFICE } ]
      enemyTexts := ["架构", "评审", "带人", "规划"]
      color := "#10b981"
      machineName := "太极拳" }
  | Profession.MANAGER =>
    { id := Profession.MANAGER
      title := "小组长"
      bossName := "空降高管"
      bossAvatarColor := "#4c1d95"
      playerAvatarColor := "#f59e0b"
      maxFavor := 1000
      actions :=
        [ { id := "report", label := "精美PPT", description := "全是废话"
            type := ActionType.PLEASE, value := 80, cooldown := 4000
            targetScene := some SceneType.BOSS_OFFICE }
        , { id := "spy", label := "打小报告", description := "不仅卷还坏"
            type := ActionType.PLEASE, value := 100, cooldown := 6000
            targetScene := some SceneType.BOSS_OFFICE }
        , { id := "deny", label := "直接回怼", description := "你行你上"
            type := ActionType.REBEL, value := 80, cooldown := 3000
            targetScene := some SceneType.BOSS_OFFICE } ]
      enemyTexts := ["汇报", "预算", "招聘", "画饼"]
      color := "#f59e0b"
      machineName := "PPT机" }
  | Profession.DIRECTOR =>
    { id := Profession.DIRECTOR
      title := "合伙人"
      bossName := "董事长"
      bossAvatarColor := "#000000"
      playerAvatarColor := "#dc2626"
      maxFavor := 9999
      actions :=
        [ { id := "ipo", label := "上市敲钟", description := "财务自由"
            type := ActionType.PLEASE, value := 500, cooldown := 10000
            targetScene := some SceneType.BOSS_OFFICE }
        , { id := "coup", label := "篡位", description := "我才是老板"
            type := ActionType.REBEL, value := 1000, cooldown := 10000
            targetScene := some SceneType.BOSS_OFFICE } ]
      enemyTexts := ["战略", "融资", "上市", "收购"]
      color := "#dc2626"
      machineName := "印钞机" }

def GET_SCENE_ACTIONS (job : Profession) (scene : SceneType) : List GameAction :=
  if scene = SceneType.HR then HR_ACTIONS
  else if scene = SceneType.WORKSTATION then WORK_ACTIONS
  else (JOBS job).actions ++ COMMON_VIOLENCE

-- --- Catalog validation helpers ---

/-- The whole action catalog: the shared lists plus every rank's own
action list. -/
def allCatalogActions : List GameAction :=
  COMMON_VIOLENCE ++ WORK_ACTIONS ++ HR_ACTIONS ++
  (JOBS Profession.INTERN).actions ++ (JOBS Profession.JUNIOR).actions ++
  (JOBS Profession.SENIOR).actions ++ (JOBS Profession.MANAGER).actions ++
  (JOBS Profession.DIRECTOR).actions

/-- A skill's optional prerequisite resolves to a catalog skill of the
same category. -/
def skillReqOk (s : SkillConfig) : Bool :=
  match s.reqId with
  | none => true
  | some r => SKILLS.any (fun t => t.id == r && t.category == s.category)

/-- An event's NPC role names a key of the `NPCS` table. -/
def npcRoleResolves (r : String) : Bool :=
  NPCS.any (fun p => p.1 == r)

def skillById (r : String) : Option SkillConfig :=
  SKILLS.find? (fun t => t.id == r)

/-- Length of a skill's prerequisite chain, fuelled so the recursion is
structural; `none` when the id is dangling or the chain does not
terminate within the fuel. -/
def reqDepth : Nat → String → Option Nat
  | 0, _ => none
  | fuel + 1, i =>
    match skillById i with
    | none => none
    | some s =>
      match s.reqId with
      | none => some 0
      | some r => (reqDepth fuel r).map (fun d => d + 1)

/-- An action's declared money cost is positive and present exactly on
VIOLENCE actions. -/
def costOk (a : GameAction) : Bool :=
  match a.cost with
  | none => a.type != ActionType.VIOLENCE
  | some c => a.type == ActionType.VIOLENCE && decide (0 < c)

-- --- Engine model (the engine itself is not among the sources) ---

/-- Modelled from the spec: the session status of the Progression State
Machine — one running family of rank states (the rank lives in the
session's `profession` field) plus the two terminal states. -/
inductive SessionStatus
  | RUNNING
  | WON
  | FAILED
deriving DecidableEq

/-- Modelled from the spec: the recoverable error kinds of the external
interface. -/
inductive ActionError
  | UnknownAction
  | SceneMismatch
  | OnCooldown
  | InsufficientFunds
  | SkillPrerequisiteUnmet
  | SkillAlreadyMaxed
  | InsufficientSkillPoints
  | SessionTerminated
  | UnknownEventOrOption
deriving DecidableEq

/-- Modelled from the spec: the Game Session State aggregate (money,
favor, rage, skill points, per-skill levels, origin, scene, per-action
cooldown expiry, nullable active event, last action id, presentation
boss-health pool, progression status). -/
structure GameState where
  profession : Profession
  money : Int
  favor : Int
  rage : Int
  sp : Int
  skillLevels : String → Nat
  origin : OriginType
  currentScene : SceneType
  cooldownExpiry : String → Nat
  currentEvent : Option String
  lastActionId : Option String
  bossHealth : Int
  status : SessionStatus

/-- Modelled from the spec: the current rank's favor ceiling. -/
def maxFavorOf (st : GameState) : Int :=
  (JOBS st.profession).maxFavor

/-- Modelled from the spec: rage ceiling is a base of 100 plus the
skill-granted increase (+100 per `sur_zen` level). -/
def rageCeiling (st : GameState) : Int :=
  100 + 100 * (st.skillLevels ("sur_zen") : Int)

def nextRank : Profession → Option Profession
  | Profession.INTERN => some Profession.JUNIOR
  | Profession.JUNIOR => some Profession.SENIOR
  | Profession.SENIOR => some Profession.MANAGER
  | Profession.MANAGER => some Profession.DIRECTOR
  | Profession.DIRECTOR => none

def clampI (lo hi x : Int) : Int := max lo (min hi x)

/-- Modelled from the spec: session creation — origin selection seeds
the initial stats from the origin's base stats; meters start at zero,
no cooldowns, no active event. -/
def initialState (o : OriginType) : GameState :=
  { profession := Profession.INTERN
    money := (ORIGINS o).baseStats.money
    favor := 0
    rage := 0
    sp := 0
    skillLevels := fun _ => 0
    origin := o
    currentScene := SceneType.WORKSTATION
    cooldownExpiry := fun _ => 0
    currentEvent := none
    lastActionId := none
    bossHealth := 1000
    status := SessionStatus.RUNNING }

/-- Modelled from the spec: Modifier Resolver rule 1 — the
category-specific skill bonus, a fixed percentage per level of the
matching skill (`eff_typing` +20% for WORK, `pol_smile` +25% for
PLEASE, `sur_gym` +30% for VIOLENCE). -/
def skillBonusPct (st : GameState) : ActionType → Nat
  | ActionType.WORK => 20 * st.skillLevels ("eff_typing")
  | ActionType.PLEASE => 25 * st.skillLevels ("pol_smile")
  | ActionType.VIOLENCE => 30 * st.skillLevels ("sur_gym")
  | _ => 0

/-- Modelled from the spec: the crit probability of the top POLITICS
skill, documented as the testable constant 0.5 the spec proposes for
the simplified engine. -/
def critChance : ℚ := 1/2

/-- Modelled from the spec: Modifier Resolver — percentage stacking
first (floored integer division), then the crit doubling rolled only
for PLEASE actions when `pol_master` is unlocked. The GRINDER origin
passive boosts work money yield (presentation earnings), not the favor
delta, so the spec's GRINDER work scenario yields exactly the
skill-multiplied value; the SOCIALITE passive concerns NPC goodwill,
which is not a session meter; the HEIR passive is the money-for-rage
rescue applied in `checkRage`. -/
def resolveModifier (st : GameState) (t : ActionType) (base : Int) (rand : ℚ) : Int :=
  let v1 : Int := base * (100 + (skillBonusPct st t : Int)) / 100
  let crit : Bool :=
    (t == ActionType.PLEASE) && (st.skillLevels ("pol_master") != 0) &&
    decide (rand < critChance)
  if crit then 2 * v1 else v1

/-- Modelled from the spec: Cooldown Tracker eligibility — an action is
ready once its recorded expiry timestamp has passed. -/
def isReady (st : GameState) (actionId : String) (now : Nat) : Bool :=
  st.cooldownExpiry actionId ≤ now

/-- Modelled from the spec: EFFICIENCY cooldown reduction — `eff_coffee`
cuts a WORK action's cooldown by 10% per level, never below a floor of
1 time unit. -/
def effectiveCooldown (st : GameState) (a : GameAction) : Nat :=
  if a.type == ActionType.WORK then
    max 1 (a.cooldown * (100 - 10 * st.skillLevels ("eff_coffee")) / 100)
  else a.cooldown

/-- Modelled from the spec: affordability — a money cost must not drive
money below the origin's floor; the GRINDER origin permits negative
money (it starts in debt), the other origins require the cost to be
covered. -/
def affordable (st : GameState) (a : GameAction) : Bool :=
  match a.cost with
  | none => true
  | some c => (st.origin == OriginType.GRINDER) || decide (c ≤ st.money)

/-- Modelled from the spec: an action is scene-compatible when it
declares no target scene or declares the session's current scene. -/
def sceneOk (a : GameAction) (scene : SceneType) : Bool :=
  match a.targetScene with
  | none => true
  | some s => s == scene

/-- Modelled from the spec: global action lookup by id over the whole
catalog. -/
def findAction (actionId : String) : Option GameAction :=
  allCatalogActions.find? (fun a => a.id == actionId)

/-- Modelled from the spec: Event Selector poll — none while the session
is terminal or an event is already active; otherwise one uniform draw
selects the first catalog event whose trigger probability exceeds the
draw. -/
def pollForEvent (st : GameState) (rand : ℚ) : Option RandomEvent :=
  if st.status ≠ SessionStatus.RUNNING then none
  else if st.currentEvent ≠ none then none
  else RANDOM_EVENTS.find? (fun e => decide (rand < e.triggerChance))

/-- Modelled from the spec: the fixed small rage decay of WORK actions
(an unspecified constant of the simplified engine, fixed as a testable
constant). -/
def workRageDecay : Int := 5

/-- Modelled from the spec: the fixed larger rage increase of PLEASE
actions. -/
def pleaseRageGain : Int := 10

/-- Modelled from the spec: the fixed favor penalty of REBEL actions. -/
def rebelFavorPenalty : Int := 5

/-- Modelled from the spec: category-specific effects of a resolved
action (step 6 of the Action Resolver). TALK delegates its event roll
to the Event Selector, which only fires when no event is active. -/
def applyEffects (st : GameState) (a : GameAction) (eff : Int) (rand : ℚ) : GameState :=
  match a.type with
  | ActionType.WORK =>
    { st with favor := st.favor + eff, rage := st.rage - workRageDecay }
  | ActionType.PLEASE =>
    { st with favor := st.favor + eff, rage := st.rage + pleaseRageGain }
  | ActionType.REBEL =>
    { st with favor := st.favor - rebelFavorPenalty, rage := st.rage - eff }
  | ActionType.TALK =>
    { st with favor := st.favor + eff
              currentEvent :=
                match st.currentEvent with
                | some e => some e
                | none => (pollForEvent st rand).map (fun e => e.id) }
  | ActionType.VIOLENCE =>
    { st with money := st.money - (a.cost.getD 0)
              rage := st.rage - eff
              bossHealth := st.bossHealth - eff }

/-- Modelled from the spec: step 7 of the Action Resolver — clamp favor
and rage to their bounds. -/
def clampMeters (st : GameState) : GameState :=
  { st with favor := clampI 0 (maxFavorOf st) st.favor
            rage := clampI 0 (rageCeiling st) st.rage }

/-- Modelled from the spec: the promotion / win transition — favor at
the final rank's ceiling yields WON; at an earlier rank it advances the
rank and resets favor to 0 (the reset-to-zero policy the spec offers). -/
def checkPromotion (st : GameState) : GameState :=
  if st.favor = maxFavorOf st then
    match nextRank st.profession with
    | none => { st with status := SessionStatus.WON }
    | some p => { st with profession := p, favor := 0 }
  else st

/-- Modelled from the spec: the HEIR rescue consumes a fixed amount of
money to cap rage below the ceiling. -/
def rescueCost : Int := 10000

/-- Modelled from the spec: the rage failure transition — rage at the
ceiling of a still-running session fails the run, unless the HEIR
money-for-rage rescue applies first. -/
def checkRage (st : GameState) : GameState :=
  if st.status = SessionStatus.RUNNING ∧ st.rage = rageCeiling st then
    if st.origin = OriginType.HEIR ∧ rescueCost ≤ st.money then
      { st with money := st.money - rescueCost, rage := rageCeiling st - 10 }
    else { st with status := SessionStatus.FAILED }
  else st

/-- Modelled from the spec: the shared clamp / promotion / failure path
taken after every action and every event option. -/
def settle (st : GameState) : GameState :=
  checkRage (checkPromotion (clampMeters st))

/-- Modelled from the spec: the successful commit of an action — the
category effects run through the settle path, then the action's
cooldown is marked and its id recorded for presentation feedback. -/
def commitAction (st : GameState) (a : GameAction) (actionId : String) (now : Nat) (rand : ℚ) :
    GameState :=
  { settle (applyEffects st a (resolveModifier st a.type a.value rand) rand) with
    cooldownExpiry := fun i =>
      if i == actionId then now + effectiveCooldown st a
      else (settle (applyEffects st a (resolveModifier st a.type a.value rand) rand)).cooldownExpiry i
    lastActionId := some actionId }

/-- Modelled from the spec: the Action Resolver — terminal check, then
lookup, scene, cooldown and affordability checks in the spec's order,
then modifier application, category effects, the settle path, and the
cooldown mark. -/
def resolveAction (st : GameState) (actionId : String) (now : Nat) (rand : ℚ) :
    Except ActionError GameState :=
  if st.status ≠ SessionStatus.RUNNING then Except.error ActionError.SessionTerminated
  else
    match findAction actionId with
    | none => Except.error ActionError.UnknownAction
    | some a =>
      if sceneOk a st.currentScene then
        if isReady st actionId now then
          if affordable st a then Except.ok (commitAction st a actionId now rand)
          else Except.error ActionError.InsufficientFunds
        else Except.error ActionError.OnCooldown
      else Except.error ActionError.SceneMismatch

/-- Modelled from the spec: applying an event option's outcome record of
signed deltas to the session meters (absent deltas count as zero; the
skill-point pool never drops below zero). -/
def eventDeltaState (st : GameState) (o : EventOption) : GameState :=
  { st with
    money := st.money + o.outcome.money.getD 0
    favor := st.favor + o.outcome.favor.getD 0
    rage := st.rage + o.outcome.rage.getD 0
    sp := max 0 (st.sp + o.outcome.sp.getD 0) }

/-- Modelled from the spec: the successful commit of an event option —
the deltas run through the same settle path as the Action Resolver,
then the active-event lock is cleared. -/
def commitEvent (st : GameState) (o : EventOption) : GameState :=
  { settle (eventDeltaState st o) with currentEvent := none }

/-- Modelled from the spec: resolving an event option applies the
option's outcome deltas through the same settle path as the Action
Resolver and clears the active-event lock; a terminal session refuses
with SessionTerminated, an unknown event or option index with
UnknownEventOrOption. -/
def resolveEventOption (st : GameState) (eventId : String) (idx : Nat) :
    Except ActionError GameState :=
  if st.status ≠ SessionStatus.RUNNING then Except.error ActionError.SessionTerminated
  else
    match RANDOM_EVENTS.find? (fun e => e.id == eventId) with
    | none => Except.error ActionError.UnknownEventOrOption
    | some e =>
      match e.options[idx]? with
      | none => Except.error ActionError.UnknownEventOrOption
      | some o => Except.ok (commitEvent st o)

/-- Modelled from the spec: the state observed by the driver after a
resolver call — the committed new state on success, the untouched old
state on error (atomicity: all effects commit or none). -/
def stepAction (st : GameState) (actionId : String) (now : Nat) (rand : ℚ) : GameState :=
  (resolveAction st actionId now rand).toOption.getD st

-- --- Concrete demonstration states ---

/-- A terminated session whose `punch` cooldown has not elapsed at time 0. -/
def c2TerminalState : GameState :=
  { initialState OriginType.GRINDER with
    status := SessionStatus.WON
    cooldownExpiry := fun _ => 1000 }

/-- A running session at the workstation whose `tea` cooldown has not
elapsed at time 0 (`tea` targets the boss office). -/
def c2MismatchState : GameState :=
  { initialState OriginType.GRINDER with cooldownExpiry := fun _ => 1000 }

/-- A running session whose every cooldown expires at time 100. -/
def c2DemoState : GameState :=
  { initialState OriginType.GRINDER with cooldownExpiry := fun _ => 100 }

/-- A DIRECTOR-rank session one `ipo` short of the final favor ceiling. -/
def c4DemoState : GameState :=
  { initialState OriginType.HEIR with
    profession := Profession.DIRECTOR
    currentScene := SceneType.BOSS_OFFICE
    favor := 9998 }

/-- The session after the winning `ipo` action. -/
def c4WonState : GameState := stepAction c4DemoState ("ipo") 0 1

/-- A failed session. -/
def c4FailState : GameState :=
  { initialState OriginType.GRINDER with status := SessionStatus.FAILED }

/-- The spec's GRINDER scenario: origin GRINDER with `eff_typing` at
level 2, at the workstation. -/
def c5State : GameState :=
  { initialState OriginType.GRINDER with
    skillLevels := fun i => if i == ("eff_typing") then 2 else 0 }

/-- A session with an active event. -/
def c6DemoState : GameState :=
  { initialState OriginType.GRINDER with currentEvent := some ("evt_coffee") }

-- --- Helper lemmas ---

theorem JOBS_maxFavor_pos (p : Profession) : 0 < (JOBS p).maxFavor := by
  cases p <;> decide

theorem rageCeiling_lb (st : GameState) : 100 ≤ rageCeiling st := by
  unfold rageCeiling
  omega

theorem clampI_nonneg (hi x : Int) : 0 ≤ clampI 0 hi x := by
  unfold clampI
  exact le_max_left 0 _

theorem clampI_le (hi x : Int) (h : 0 ≤ hi) : clampI 0 hi x ≤ hi := by
  unfold clampI
  exact max_le h (min_le_left _ _)

theorem clampMeters_bounds (s : GameState) :
    0 ≤ (clampMeters s).favor ∧ (clampMeters s).favor ≤ maxFavorOf (clampMeters s) ∧
    0 ≤ (clampMeters s).rage ∧ (clampMeters s).rage ≤ rageCeiling (clampMeters s) := by
  have h1 : (clampMeters s).favor = clampI 0 (maxFavorOf s) s.favor := rfl
  have h2 : (clampMeters s).rage = clampI 0 (rageCeiling s) s.rage := rfl
  have h3 : maxFavorOf (clampMeters s) = maxFavorOf s := rfl
  have h4 : rageCeiling (clampMeters s) = rageCeiling s := rfl
  rw [h1, h2, h3, h4]
  refine ⟨clampI_nonneg _ _, clampI_le _ _ ?_, clampI_nonneg _ _, clampI_le _ _ ?_⟩
  · exact le_of_lt (JOBS_maxFavor_pos s.profession)
  · exact le_trans (by norm_num) (rageCeiling_lb s)

theorem checkPromotion_bounds (s : GameState)
    (hf0 : 0 ≤ s.favor) (hf1 : s.favor ≤ maxFavorOf s) :
    0 ≤ (checkPromotion s).favor ∧
    (checkPromotion s).favor ≤ maxFavorOf (checkPromotion s) ∧
    (checkPromotion s).rage = s.rage ∧
    rageCeiling (checkPromotion s) = rageCeiling s := by
  unfold checkPromotion
  split
  · split
    · exact ⟨hf0, hf1, rfl, rfl⟩
    · exact ⟨le_refl 0, le_of_lt (JOBS_maxFavor_pos _), rfl, rfl⟩
  · exact ⟨hf0, hf1, rfl, rfl⟩

theorem checkRage_bounds (s : GameState)
    (hr0 : 0 ≤ s.rage) (hr1 : s.rage ≤ rageCeiling s) :
    (checkRage s).favor = s.favor ∧
    maxFavorOf (checkRage s) = maxFavorOf s ∧
    0 ≤ (checkRage s).rage ∧
    (checkRage s).rage ≤ rageCeiling (checkRage s) := by
  have h100 : 100 ≤ rageCeiling s := rageCeiling_lb s
  unfold checkRage
  split
  · split
    · refine ⟨rfl, rfl, ?_, ?_⟩
      · show 0 ≤ rageCeiling s - 10
        omega
      · show rageCeiling s - 10 ≤ rageCeiling s
        omega
    · exact ⟨rfl, rfl, hr0, hr1⟩
  · exact ⟨rfl, rfl, hr0, hr1⟩

theorem settle_bounds (s : GameState) :
    0 ≤ (settle s).favor ∧ (settle s).favor ≤ maxFavorOf (settle s) ∧
    0 ≤ (settle s).rage ∧ (settle s).rage ≤ rageCeiling (settle s) := by
  obtain ⟨a1, a2, a3, a4⟩ := clampMeters_bounds s
  obtain ⟨b1, b2, b3, b4⟩ := checkPromotion_bounds (clampMeters s) a1 a2
  obtain ⟨c1, c2, c3, c4⟩ :=
    checkRage_bounds (checkPromotion (clampMeters s))
      (by rw [b3]; exact a3) (by rw [b3, b4]; exact a4)
  unfold settle
  refine ⟨?_, ?_, c3, c4⟩
  · rw [c1]; exact b1
  · rw [c1, c2]; exact b2

theorem checkRage_favor (s : GameState) : (checkRage s).favor = s.favor := by
  unfold checkRage
  split
  · split <;> rfl
  · rfl

theorem checkRage_profession (s : GameState) :
    (checkRage s).profession = s.profession := by
  unfold checkRage
  split
  · split <;> rfl
  · rfl

theorem checkRage_status_of_won (s : GameState) (h : s.status = SessionStatus.WON) :
    (checkRage s).status = SessionStatus.WON := by
  unfold checkRage
  rw [if_neg]
  · exact h
  · rintro ⟨h1, -⟩
    rw [h] at h1
    exact SessionStatus.noConfusion h1

theorem settle_status_won (s : GameState)
    (hdir : (settle s).profession = Profession.DIRECTOR)
    (hfav : (settle s).favor = (JOBS Profession.DIRECTOR).maxFavor) :
    (settle s).status = SessionStatus.WON := by
  have hclamp : (clampMeters s).favor ≤ maxFavorOf (clampMeters s) :=
    (clampMeters_bounds s).2.1
  unfold settle at hdir hfav ⊢
  by_cases hc : (clampMeters s).favor = maxFavorOf (clampMeters s)
  · unfold checkPromotion at hdir hfav ⊢
    rw [if_pos hc] at hdir hfav ⊢
    cases hnr : nextRank (clampMeters s).profession with
    | none =>
      simp only [hnr]
      exact checkRage_status_of_won _ rfl
    | some p =>
      simp only [hnr] at hfav
      rw [checkRage_favor] at hfav
      simp only at hfav
      exact absurd hfav (by decide)
  · unfold checkPromotion at hdir hfav ⊢
    rw [if_neg hc] at hdir hfav
    rw [checkRage_favor] at hfav
    rw [checkRage_profession] at hdir
    exact absurd (by unfold maxFavorOf; rw [hdir, hfav]) hc

theorem resolveAction_terminal (st : GameState) (actionId : String) (now : Nat) (rand : ℚ)
    (h : st.status ≠ SessionStatus.RUNNING) :
    resolveAction st actionId now rand = Except.error ActionError.SessionTerminated := by
  unfold resolveAction
  rw [if_pos h]

theorem stepAction_terminal (st : GameState) (actionId : String) (now : Nat) (rand : ℚ)
    (h : st.status ≠ SessionStatus.RUNNING) :
    stepAction st actionId now rand = st := by
  unfold stepAction
  rw [resolveAction_terminal st actionId now rand h]
  rfl

theorem resolveEventOption_terminal (st : GameState) (eventId : String) (idx : Nat)
    (h : st.status ≠ SessionStatus.RUNNING) :
    resolveEventOption st eventId idx = Except.error ActionError.SessionTerminated := by
  unfold resolveEventOption
  rw [if_pos h]

theorem resolveAction_ok_inv (st : GameState) (actionId : String) (now : Nat) (rand : ℚ)
    (st' : GameState) (h : resolveAction st actionId now rand = Except.ok st') :
    ∃ a, findAction actionId = some a ∧ st' = commitAction st a actionId now rand := by
  unfold resolveAction at h
  split at h
  · exact Except.noConfusion h
  · split at h
    · exact Except.noConfusion h
    · rename_i a heq
      split at h
      · split at h
        · split at h
          · injection h with h
            exact ⟨a, heq, h.symm⟩
          · exact Except.noConfusion h
        · exact Except.noConfusion h
      · exact Except.noConfusion h

theorem resolveEventOption_ok_inv (st : GameState) (eventId : String) (idx : Nat)
    (st' : GameState) (h : resolveEventOption st eventId idx = Except.ok st') :
    ∃ e o, RANDOM_EVENTS.find? (fun x => x.id == eventId) = some e ∧
      e.options[idx]? = some o ∧ st' = commitEvent st o := by
  unfold resolveEventOption at h
  split at h
  · exact Except.noConfusion h
  · split at h
    · exact Except.noConfusion h
    · rename_i e heq
      split at h
      · exact Except.noConfusion h
      · rename_i o heq2
        injection h with h
        exact ⟨e, o, heq, heq2, h.symm⟩

theorem commitAction_bounds (st : GameState) (a : GameAction) (actionId : String)
    (now : Nat) (rand : ℚ) :
    0 ≤ (commitAction st a actionId now rand).favor ∧
    (commitAction st a actionId now rand).favor ≤ maxFavorOf (commitAction st a actionId now rand) ∧
    0 ≤ (commitAction st a actionId now rand).rage ∧
    (commitAction st a actionId now rand).rage ≤ rageCeiling (commitAction st a actionId now rand) :=
  settle_bounds (applyEffects st a (resolveModifier st a.type a.value rand) rand)

theorem commitEvent_bounds (st : GameState) (o : EventOption) :
    0 ≤ (commitEvent st o).favor ∧
    (commitEvent st o).favor ≤ maxFavorOf (commitEvent st o) ∧
    0 ≤ (commitEvent st o).rage ∧
    (commitEvent st o).rage ≤ rageCeiling (commitEvent st o) :=
  settle_bounds (eventDeltaState st o)

theorem commitAction_profession (st : GameState) (a : GameAction) (actionId : String)
    (now : Nat) (rand : ℚ) :
    (commitAction st a actionId now rand).profession =
      (settle (applyEffects st a (resolveModifier st a.type a.value rand) rand)).profession := rfl

theorem commitAction_favor (st : GameState) (a : GameAction) (actionId : String)
    (now : Nat) (rand : ℚ) :
    (commitAction st a actionId now rand).favor =
      (settle (applyEffects st a (resolveModifier st a.type a.value rand) rand)).favor := rfl

theorem commitAction_status (st : GameState) (a : GameAction) (actionId : String)
    (now : Nat) (rand : ℚ) :
    (commitAction st a actionId now rand).status =
      (settle (applyEffects st a (resolveModifier st a.type a.value rand) rand)).status := rfl

-- --- Claim theorems ---

/-- C1 (counterexample): the first catalog event names the NPC role
BOSS, and BOSS is not a key of the NPCS table, so not every npcRole of
RANDOM_EVENTS resolves to an NPCS entry. -/
theorem c1_counterexample :
    evt_boss_secret ∈ RANDOM_EVENTS ∧
    npcRoleResolves evt_boss_secret.npcRole = false :=
  ⟨by unfold RANDOM_EVENTS; exact List.mem_cons_self _ _, rfl⟩

/-- C1 (amended): every prerequisite `reqId` in the SKILLS table
resolves to an existing skill entry of the same category, and every
npcRole named by a RANDOM_EVENTS entry either is the boss role BOSS
(configured per rank in JOBS, not in the NPCS table) or resolves to an
existing NPCS entry. -/
theorem c1_catalog_referential_integrity_amended (s : SkillConfig) (e : RandomEvent)
    (hs : s ∈ SKILLS) (he : e ∈ RANDOM_EVENTS) :
    skillReqOk s = true ∧
    ((e.npcRole == ("BOSS")) || npcRoleResolves e.npcRole) = true := by
  constructor
  · have h : ∀ x ∈ SKILLS, skillReqOk x = true := by decide
    exact h s hs
  · have h : ∀ x ∈ RANDOM_EVENTS,
        ((x.npcRole == ("BOSS")) || npcRoleResolves x.npcRole) = true := by
      intro x hx
      unfold RANDOM_EVENTS at hx
      fin_cases hx <;> rfl
    exact h e he

/-- C1 (witness): the amended integrity statement evaluated at the
`eff_coffee` skill and the `evt_coffee` event. -/
theorem evt_coffee_mem : evt_coffee ∈ RANDOM_EVENTS := by
  unfold RANDOM_EVENTS
  exact List.mem_cons_of_mem _ (List.mem_cons_of_mem _ (List.mem_cons_of_mem _
    (List.mem_cons_of_mem _ (List.mem_cons_self _ _))))

/-- C1 (witness): the amended integrity statement evaluated at the
`eff_coffee` skill and the `evt_coffee` event. -/
theorem c1_witness :
    skillReqOk eff_coffee = true ∧
    ((evt_coffee.npcRole == ("BOSS")) || npcRoleResolves evt_coffee.npcRole) = true :=
  c1_catalog_referential_integrity_amended eff_coffee evt_coffee (by decide) evt_coffee_mem

/-- C6: while an event is active, `pollForEvent` returns none for every
value of the random source; the lock is only released by
`resolveEventOption`. -/
theorem c6_poll_locked (st : GameState) (rand : ℚ) (h : st.currentEvent ≠ none) :
    pollForEvent st rand = none := by
  by_cases hs : st.status ≠ SessionStatus.RUNNING
  · unfold pollForEvent
    rw [if_pos hs]
  · unfold pollForEvent
    rw [if_neg hs, if_pos h]

/-- C6 (witness): polling a session whose active event is `evt_coffee`
returns none. -/
theorem c6_witness : pollForEvent c6DemoState 0 = none :=
  c6_poll_locked c6DemoState 0 (by decide)

/-- C7: every catalog event has a trigger probability in [0,1] and
between 2 and 4 options. -/
theorem c7_events_well_formed (e : RandomEvent) (he : e ∈ RANDOM_EVENTS) :
    0 ≤ e.triggerChance ∧ e.triggerChance ≤ 1 ∧
    2 ≤ e.options.length ∧ e.options.length ≤ 4 := by
  have h : ∀ x ∈ RANDOM_EVENTS,
      0 ≤ x.triggerChance ∧ x.triggerChance ≤ 1 ∧
      2 ≤ x.options.length ∧ x.options.length ≤ 4 := by
    intro x hx
    unfold RANDOM_EVENTS at hx
    fin_cases hx <;>
      norm_num [evt_boss_secret, evt_betrayal, evt_offer, evt_blame, evt_coffee]
  exact h e he

/-- C7 (witness): the well-formedness statement evaluated at
`evt_coffee`. -/
theorem c7_witness :
    0 ≤ evt_coffee.triggerChance ∧ evt_coffee.triggerChance ≤ 1 ∧
    2 ≤ evt_coffee.options.length ∧ evt_coffee.options.length ≤ 4 :=
  c7_events_well_formed evt_coffee evt_coffee_mem

/-- C8: every catalog skill has maxLevel between 1 and 5, every
declared prerequisite resolves to a skill of the same category, every
prerequisite chain terminates (is acyclic) within the catalog's size,
and no two skills share a prerequisite (the chains are linear). -/
theorem c8_skills_well_formed (s : SkillConfig) (hs : s ∈ SKILLS) :
    (1 ≤ s.maxLevel ∧ s.maxLevel ≤ 5) ∧
    skillReqOk s = true ∧
    (reqDepth (SKILLS.length) s.id).isSome = true ∧
    (SKILLS.filterMap SkillConfig.reqId).Nodup := by
  refine ⟨?_, ?_, ?_, by decide⟩
  · have h : ∀ x ∈ SKILLS, 1 ≤ x.maxLevel ∧ x.maxLevel ≤ 5 := by decide
    exact h s hs
  · have h : ∀ x ∈ SKILLS, skillReqOk x = true := by decide
    exact h s hs
  · have h : ∀ x ∈ SKILLS, (reqDepth (SKILLS.length) x.id).isSome = true := by decide
    exact h s hs

/-- C8 (witness): the skill well-formedness statement evaluated at
`sur_gym`. -/
theorem c8_witness :
    (1 ≤ sur_gym.maxLevel ∧ sur_gym.maxLevel ≤ 5) ∧
    skillReqOk sur_gym = true ∧
    (reqDepth (SKILLS.length) sur_gym.id).isSome = true ∧
    (SKILLS.filterMap SkillConfig.reqId).Nodup :=
  c8_skills_well_formed sur_gym (by decide)

/-- C9: scene dispatch returns the fixed HR list for HR, the fixed
workstation list for WORKSTATION, and the rank's own actions followed
by the common violence actions for the boss office; every returned
action that declares a target scene declares the queried scene. -/
theorem c9_scene_actions (job : Profession) (scene : SceneType) :
    GET_SCENE_ACTIONS job SceneType.HR = HR_ACTIONS ∧
    GET_SCENE_ACTIONS job SceneType.WORKSTATION = WORK_ACTIONS ∧
    GET_SCENE_ACTIONS job SceneType.BOSS_OFFICE = (JOBS job).actions ++ COMMON_VIOLENCE ∧
    (∀ a ∈ GET_SCENE_ACTIONS job scene,
      a.targetScene = none ∨ a.targetScene = some scene) := by
  refine ⟨rfl, rfl, rfl, ?_⟩
  cases job <;> cases scene <;> decide

/-- C9 (witness): the target-scene component evaluated at the INTERN
rank's boss office and the `punch` action. -/
theorem c9_witness :
    punch.targetScene = none ∨ punch.targetScene = some SceneType.BOSS_OFFICE :=
  (c9_scene_actions Profession.INTERN SceneType.BOSS_OFFICE).2.2.2 punch (by decide)

/-- C10: across the whole action catalog, a money cost is declared
exactly on VIOLENCE actions, and every declared cost is strictly
positive. -/
theorem c10_costs_violence_only (a : GameAction) (ha : a ∈ allCatalogActions) :
    (a.cost ≠ none ↔ a.type = ActionType.VIOLENCE) ∧ costOk a = true := by
  have h : ∀ x ∈ allCatalogActions,
      (x.cost ≠ none ↔ x.type = ActionType.VIOLENCE) ∧ costOk x = true := by decide
  exact h a ha

/-- C10 (witness): the cost discipline evaluated at `punch`. -/
theorem c10_witness :
    (punch.cost ≠ none ↔ punch.type = ActionType.VIOLENCE) ∧ costOk punch = true :=
  c10_costs_violence_only punch (by decide)

/-- C2 (counterexample): the claim is not true of every session state —
a terminated session returns SessionTerminated even while the action's
cooldown has not elapsed, and a scene-mismatched action returns
SceneMismatch even while its cooldown has not elapsed. -/
theorem c2_counterexample :
    (0 < c2TerminalState.cooldownExpiry ("punch") ∧
     resolveAction c2TerminalState ("punch") 0 0 =
       Except.error ActionError.SessionTerminated) ∧
    (0 < c2MismatchState.cooldownExpiry ("tea") ∧
     resolveAction c2MismatchState ("tea") 0 0 =
       Except.error ActionError.SceneMismatch) :=
  ⟨⟨by decide, rfl⟩, ⟨by decide, rfl⟩⟩

/-- C2 (amended): for a running session and an action that exists in
the catalog and is compatible with the current scene, `resolveAction`
during an active cooldown returns OnCooldown and leaves the session
state completely unchanged. -/
theorem c2_oncooldown_amended (st : GameState) (actionId : String) (a : GameAction)
    (now : Nat) (rand : ℚ)
    (hrun : st.status = SessionStatus.RUNNING)
    (hfind : findAction actionId = some a)
    (hscene : sceneOk a st.currentScene = true)
    (hcd : isReady st actionId now = false) :
    resolveAction st actionId now rand = Except.error ActionError.OnCooldown ∧
    stepAction st actionId now rand = st := by
  have hres : resolveAction st actionId now rand = Except.error ActionError.OnCooldown := by
    unfold resolveAction
    rw [if_neg (by simp [hrun])]
    simp only [hfind, hscene, hcd]
    rfl
  refine ⟨hres, ?_⟩
  unfold stepAction
  rw [hres]
  rfl

/-- C2 (witness): the amended statement evaluated on a running session
whose `work_hard` cooldown expires at time 100, polled at time 0. -/
theorem c2_witness :
    resolveAction c2DemoState ("work_hard") 0 0 = Except.error ActionError.OnCooldown ∧
    stepAction c2DemoState ("work_hard") 0 0 = c2DemoState :=
  c2_oncooldown_amended c2DemoState ("work_hard") work_hard 0 0 rfl rfl rfl rfl

/-- C5: with origin GRINDER and `eff_typing` at level 2, resolving
`work_hard` (base value 10) succeeds and yields a favor delta of
exactly floor(10 × 1.4) = 14, for every value of the random source. -/
theorem c5_grinder_work_delta :
    ∀ rand : ℚ,
      resolveAction c5State ("work_hard") 0 rand =
        Except.ok (stepAction c5State ("work_hard") 0 rand) ∧
      (stepAction c5State ("work_hard") 0 rand).favor = c5State.favor + 14 :=
  fun _ => ⟨rfl, rfl⟩

/-- C3: after every successfully resolved action and every successfully
resolved event option, favor lies in [0, the current rank's ceiling]
and rage lies in [0, rageCeiling]. -/
theorem c3_meters_in_bounds (st st' : GameState) (actionId : String) (now : Nat)
    (rand : ℚ) (eventId : String) (idx : Nat)
    (h : resolveAction st actionId now rand = Except.ok st' ∨
         resolveEventOption st eventId idx = Except.ok st') :
    0 ≤ st'.favor ∧ st'.favor ≤ maxFavorOf st' ∧
    0 ≤ st'.rage ∧ st'.rage ≤ rageCeiling st' := by
  rcases h with h | h
  · obtain ⟨a, -, rfl⟩ := resolveAction_ok_inv st actionId now rand st' h
    exact commitAction_bounds st a actionId now rand
  · obtain ⟨e, o, -, -, rfl⟩ := resolveEventOption_ok_inv st eventId idx st' h
    exact commitEvent_bounds st o

/-- C3 (witness): the bounds evaluated on the state reached by a fresh
GRINDER session resolving `work_hard`. -/
theorem c3_witness :
    0 ≤ (stepAction (initialState OriginType.GRINDER) ("work_hard") 0 1).favor ∧
    (stepAction (initialState OriginType.GRINDER) ("work_hard") 0 1).favor ≤
      maxFavorOf (stepAction (initialState OriginType.GRINDER) ("work_hard") 0 1) ∧
    0 ≤ (stepAction (initialState OriginType.GRINDER) ("work_hard") 0 1).rage ∧
    (stepAction (initialState OriginType.GRINDER) ("work_hard") 0 1).rage ≤
      rageCeiling (stepAction (initialState OriginType.GRINDER) ("work_hard") 0 1) :=
  c3_meters_in_bounds (initialState OriginType.GRINDER)
    (stepAction (initialState OriginType.GRINDER) ("work_hard") 0 1)
    ("work_hard") 0 1 ("evt_coffee") 0 (Or.inl rfl)

/-- C4: an action that leaves the session at the final rank with favor
at the final ceiling puts it in the terminal WON state; from a WON or a
FAILED session no resolver call changes the state, and every such call
fails with SessionTerminated (so WON is entered at most once). -/
theorem c4_terminal_behavior (st st' stF : GameState) (actionId : String)
    (now : Nat) (rand : ℚ)
    (hok : resolveAction st actionId now rand = Except.ok st')
    (hdir : st'.profession = Profession.DIRECTOR)
    (hfav : st'.favor = (JOBS Profession.DIRECTOR).maxFavor)
    (hfail : stF.status = SessionStatus.FAILED) :
    st'.status = SessionStatus.WON ∧
    (∀ aid2 : String, ∀ now2 : Nat, ∀ rand2 : ℚ,
      resolveAction st' aid2 now2 rand2 = Except.error ActionError.SessionTerminated) ∧
    (∀ aid2 : String, ∀ now2 : Nat, ∀ rand2 : ℚ,
      stepAction st' aid2 now2 rand2 = st') ∧
    (∀ eid : String, ∀ idx : Nat,
      resolveEventOption st' eid idx = Except.error ActionError.SessionTerminated) ∧
    (∀ aid2 : String, ∀ now2 : Nat, ∀ rand2 : ℚ,
      resolveAction stF aid2 now2 rand2 = Except.error ActionError.SessionTerminated) ∧
    (∀ aid2 : String, ∀ now2 : Nat, ∀ rand2 : ℚ,
      stepAction stF aid2 now2 rand2 = stF) := by
  have hwon : st'.status = SessionStatus.WON := by
    obtain ⟨a, -, rfl⟩ := resolveAction_ok_inv st actionId now rand st' hok
    rw [commitAction_profession] at hdir
    rw [commitAction_favor] at hfav
    rw [commitAction_status]
    exact settle_status_won _ hdir hfav
  have hterm : st'.status ≠ SessionStatus.RUNNING := by
    rw [hwon]
    exact fun hx => SessionStatus.noConfusion hx
  have htermF : stF.status ≠ SessionStatus.RUNNING := by
    rw [hfail]
    exact fun hx => SessionStatus.noConfusion hx
  refine ⟨hwon, ?_, ?_, ?_, ?_, ?_⟩
  · intro aid2 now2 rand2
    exact resolveAction_terminal st' aid2 now2 rand2 hterm
  · intro aid2 now2 rand2
    exact stepAction_terminal st' aid2 now2 rand2 hterm
  · intro eid idx
    exact resolveEventOption_terminal st' eid idx hterm
  · intro aid2 now2 rand2
    exact resolveAction_terminal stF aid2 now2 rand2 htermF
  · intro aid2 now2 rand2
    exact stepAction_terminal stF aid2 now2 rand2 htermF

/-- C4 (witness): a DIRECTOR session at favor 9998 resolving `ipo`
reaches WON, after which every resolver call fails with
SessionTerminated, as it does on a FAILED session. -/
theorem c4_witness :
    c4WonState.status = SessionStatus.WON ∧
    (∀ aid2 : String, ∀ now2 : Nat, ∀ rand2 : ℚ,
      resolveAction c4WonState aid2 now2 rand2 = Except.error ActionError.SessionTerminated) ∧
    (∀ aid2 : String, ∀ now2 : Nat, ∀ rand2 : ℚ,
      stepAction c4WonState aid2 now2 rand2 = c4WonState) ∧
    (∀ eid : String, ∀ idx : Nat,
      resolveEventOption c4WonState eid idx = Except.error ActionError.SessionTerminated) ∧
    (∀ aid2 : String, ∀ now2 : Nat, ∀ rand2 : ℚ,
      resolveAction c4FailState aid2 now2 rand2 = Except.error ActionError.SessionTerminated) ∧
    (∀ aid2 : String, ∀ now2 : Nat, ∀ rand2 : ℚ,
      stepAction c4FailState aid2 now2 rand2 = c4FailState) :=
  c4_terminal_behavior c4DemoState c4WonState c4FailState ("ipo") 0 1 rfl rfl rfl rfl
